import Mathlib

/-!
# Governable — shallow embedding and verification

A shallow embedding of the Governable TypeScript library (contract
specification grammars, the sequence validator, the executable-contract
abstraction and the distributed-organization orchestrator), together with
theorems settling the frozen claims about it.

Transactions are reduced to the single field the embedded kernel code
inspects — their numeric type — and network effects are passed in as
explicit outcomes.
-/

/-- Transaction types are numeric in symbol-sdk (`TransactionType` enum). -/
abbrev TransactionType := Nat

/-- Numeric type codes as assigned by symbol-sdk.  Only distinctness and
JS-truthiness (non-zero) of the codes matter to the embedded code. -/
def TransactionType.TRANSFER : TransactionType := 16724

def TransactionType.MULTISIG_ACCOUNT_MODIFICATION : TransactionType := 16725

def TransactionType.SECRET_PROOF : TransactionType := 16978

def TransactionType.SECRET_LOCK : TransactionType := 16722

def TransactionType.MOSAIC_DEFINITION : TransactionType := 16717

def TransactionType.MOSAIC_SUPPLY_CHANGE : TransactionType := 16973

def TransactionType.ACCOUNT_MOSAIC_RESTRICTION : TransactionType := 16976

def TransactionType.MOSAIC_GLOBAL_RESTRICTION : TransactionType := 16721

def TransactionType.MOSAIC_ADDRESS_RESTRICTION : TransactionType := 16977

def TransactionType.MOSAIC_METADATA : TransactionType := 16964

def TransactionType.ACCOUNT_METADATA : TransactionType := 16708

/-- An embedded (inner) transaction, reduced to the only field the
embedded kernel code reads from it: its numeric `type`. -/
structure Transaction where
  type : TransactionType
deriving Repr, DecidableEq

/-- An aggregate transaction, reduced to its embedded transaction list. -/
structure AggregateTransaction where
  innerTransactions : List Transaction
deriving Repr, DecidableEq

/-- One entry of a `TaxonomyMap` (the class itself is a
`Map<number, TaxonomyMapEntry>` keyed by position index; it is embedded
as a list whose indices are the positions, which is how every grammar in
the repository populates it: contiguous keys `0..n-1`). -/
structure TaxonomyMapEntry where
  type : TransactionType
  required : Bool
deriving Repr, DecidableEq

/-- `SemanticRuleset` (src/kernel/SemanticsMap.ts).  The field spellings
`minOccurences` / `maxOccurences` follow the source. -/
structure SemanticRuleset where
  bundleWith : List Nat
  repeatable : Bool
  minOccurences : Nat
  maxOccurences : Nat
deriving Repr, DecidableEq

/-- `Taxonomy` (src/kernel/Taxonomy.ts).  `sequence` is the `TaxonomyMap`,
`semantics` the `SemanticsMap` (a `Map<number, SemanticRuleset>`, embedded
as an association list over position indices; lookup takes the first
binding for a key, as a JS `Map` holds at most one). -/
structure Taxonomy where
  name : String
  sequence : List TaxonomyMapEntry
  semantics : List (Nat × SemanticRuleset) := []
  repeatableTypes : List TransactionType := []
deriving Repr, DecidableEq

/-- `Taxonomy.getTransactionTypes()`: the unique transaction types of the
sequence.  The source collects them as JS object keys (which iterate
numeric keys in ascending order); only membership and emptiness of the
result are ever read, so the embedding keeps first-occurrence order. -/
def Taxonomy.getTransactionTypes (t : Taxonomy) : List TransactionType :=
  (t.sequence.map (·.type)).dedup

/-- The `registeredTypes` field, assigned from `getTransactionTypes()` in
the constructor (the sequence is never mutated afterwards, so a derived
definition agrees with the stored field). -/
def Taxonomy.registeredTypes (t : Taxonomy) : List TransactionType :=
  t.getTransactionTypes

/-- `Taxonomy.acceptsType(type)`.  The source first checks `!!type`
(JS truthiness), embedded as `ty ≠ 0`. -/
def Taxonomy.acceptsType (t : Taxonomy) (ty : TransactionType) : Bool :=
  ty != 0 && t.registeredTypes.length > 0 && t.registeredTypes.contains ty

/-- `Taxonomy.acceptsRepeat(type)`. -/
def Taxonomy.acceptsRepeat (t : Taxonomy) (ty : TransactionType) : Bool :=
  ty != 0 && t.repeatableTypes.length > 0 && t.repeatableTypes.contains ty

/-- `Taxonomy.setAcceptsRepeat(type)`: appends `type` to
`repeatableTypes` when it is registered and not yet present. -/
def Taxonomy.setAcceptsRepeat (t : Taxonomy) (ty : TransactionType) : Taxonomy :=
  if ! t.registeredTypes.contains ty then t
  else if ! t.repeatableTypes.contains ty then
    { t with repeatableTypes := t.repeatableTypes ++ [ty] }
  else t

/-- Lookup in a `SemanticsMap` (`this.semantics.get(i)`). -/
def semanticsGet (semantics : List (Nat × SemanticRuleset)) (i : Nat) :
    Option SemanticRuleset :=
  (semantics.find? (·.1 == i)).map (·.2)

/-- One full repetition of `entries` matching at the head of `txs`: the
inner `for` loop of `Taxonomy.validateBundle`, which breaks at the first
missing or mismatched transaction and flags `isBundle` only after the
last index matched. -/
def bundleMatchesHead : List TaxonomyMapEntry → List Transaction → Bool
  | [], _ => true
  | _ :: _, [] => false
  | e :: es, tx :: txs => tx.type == e.type && bundleMatchesHead es txs

/-- The do/while loop of `Taxonomy.validateBundle`: greedily counts
consecutive full repetitions of `entries` (each found repetition moves
the cursor by `entries.length`, embedded by dropping that many
transactions).  Every counted repetition consumes `entries.length ≥ 1`
transactions, so `fuel = transactions.length + 1` always suffices; an
empty `entries` never sets `isBundle` in the source and yields `0`. -/
def validateBundleFuel (entries : List TaxonomyMapEntry) :
    Nat → List Transaction → Nat
  | 0, _ => 0
  | fuel + 1, txs =>
    if entries.isEmpty then 0
    else if bundleMatchesHead entries txs then
      validateBundleFuel entries fuel (txs.drop entries.length) + 1
    else 0

/-- `Taxonomy.validateBundle(entries, transactions)`
(src/kernel/Taxonomy.ts, lines 161-190). -/
def Taxonomy.validateBundle (entries : List TaxonomyMapEntry)
    (transactions : List Transaction) : Nat :=
  validateBundleFuel entries (transactions.length + 1) transactions

/-- The bundle collected by the repeatable branch of the walk:
`bundle = [entry]` followed by `sequence.get(i + b)` for
`b = 1 .. bundleWith.length - 1`.  The source asserts the lookups
non-null (`!`); an out-of-range position would fault at runtime and is
dropped here (no grammar in the repository, nor any input considered by
the claims, places a bundle across the end of the sequence). -/
def bundleAt (sequence : List TaxonomyMapEntry) (i : Nat)
    (rules : SemanticRuleset) : List TaxonomyMapEntry :=
  (List.range rules.bundleWith.length).filterMap fun b => sequence.get? (i + b)

/-- The positional walk of `Taxonomy.validate` (the second `for` loop,
src/kernel/Taxonomy.ts lines 98-147), carrying grammar position `i` and
the counters `skip` and `bundled`.  The repeatable branch mutates the
loop variable (`i = i + bundle.length`) and the loop header then adds
one more.  `i` strictly increases, so `fuel = sequence.length` bounds
the iteration count (once `i` runs past the sequence the walk returns
`true`, which is also what exhausted fuel returns).  The source computes
`cursor = i - skip + bundled` on JS numbers; in every reachable state
`skip ≤ i` (`skip` grows at most once per iteration while `i` grows at
least once), so truncated Nat subtraction agrees with the source. -/
def validateLoop (sequence : List TaxonomyMapEntry)
    (semantics : List (Nat × SemanticRuleset)) (ctrTxes : List Transaction) :
    Nat → Nat → Nat → Nat → Bool
  | 0, _, _, _ => true
  | fuel + 1, i, skip, bundled =>
    match sequence.get? i with
    | none => true
    | some entry =>
      let cursor := i - skip + bundled
      let innerTx := ctrTxes.get? cursor
      if entry.required = false then
        -- 1. Optional entries *can* appear
        let skip₁ := if innerTx.map (·.type) != some entry.type then skip + 1 else skip
        validateLoop sequence semantics ctrTxes fuel (i + 1) skip₁ bundled
      else
        match semanticsGet semantics i with
        | some rules =>
          if rules.repeatable then
            -- 2. Repeatable entries are validated in bundles
            let trxes := ctrTxes.drop cursor
            let bundle := bundleAt sequence i rules
            let numOccurences := Taxonomy.validateBundle bundle trxes
            if numOccurences = 0 then false
            else
              validateLoop sequence semantics ctrTxes fuel
                (i + bundle.length + 1) skip (bundled + numOccurences * bundle.length)
          else if innerTx.map (·.type) != some entry.type then false
          else validateLoop sequence semantics ctrTxes fuel (i + 1) skip bundled
        | none =>
          -- 3. Required entries *must* appear
          if innerTx.map (·.type) != some entry.type then false
          else validateLoop sequence semantics ctrTxes fuel (i + 1) skip bundled

/-- `Taxonomy.validate(contract)` (src/kernel/Taxonomy.ts, lines 69-150):
rejects empty contracts and empty grammars, applies the global
accepted-type pre-filter, then runs the positional walk. -/
def Taxonomy.validate (t : Taxonomy) (contract : AggregateTransaction) : Bool :=
  if contract.innerTransactions.isEmpty then false
  else if t.registeredTypes.isEmpty then false
  else if ! contract.innerTransactions.all (fun tx => t.acceptsType tx.type) then false
  else validateLoop t.sequence t.semantics contract.innerTransactions t.sequence.length 0 0 0

/-! ## Execution context, contract options and the contract base layer -/

/-- Network addresses, kept opaque (only compared for equality). -/
abbrev Address := String

/-- A public account, reduced to the fields the embedded code compares. -/
structure PublicAccount where
  publicKey : String
  address : Address
deriving Repr, DecidableEq

/-- `new PublicAccount()` — the blank account used as the default value
of the `getInput('target', ...)` calls. -/
def PublicAccount.blank : PublicAccount := ⟨"", ""⟩

/-- Contract option values.  The source stores `any`; the embedding
enumerates the value shapes the modelled code paths inspect: `null`
(the sentinel of the mandatory-argument check), public accounts (the
`target` option), and a constructor for every other value (passwords,
mnemonics, derivation paths, operator lists, metadata buckets, ...),
which the modelled paths only test for presence. -/
inductive Value where
  | null
  | account (value : PublicAccount)
  | raw (tag : String)
deriving Repr, DecidableEq

/-- Uses a `Value` where the source uses the result of
`getInput('target', new PublicAccount())` as a `PublicAccount`.  The
source performs no type check; a non-account value would fault at
runtime and is outside the modelled input space (embedded as the blank
account). -/
def Value.asAccount : Value → PublicAccount
  | .account a => a
  | _ => PublicAccount.blank

/-- `ContractOption` (src/models/ContractOption.ts). -/
structure ContractOption where
  name : String
  value : Value
deriving Repr, DecidableEq

/-- `TransactionParameters` (src/models/TransactionParameters.ts),
reduced to data (deadlines are opaque to the embedded control flow). -/
structure TransactionParameters where
  epochAjustment : Nat := 1573430400
  deadline : Nat := 0
  maxFeeInt : Option Nat := none
deriving Repr, DecidableEq

/-- `Context` (src/kernel/Context.ts).  The `reader` and `signer`
capabilities are opaque to every embedded code path and are omitted. -/
structure Context where
  revision : Nat
  actor : PublicAccount
  parameters : TransactionParameters
  argv : Option (List ContractOption)
deriving Repr, DecidableEq

/-- `Context.getInput(name, defaultValue)` (src/kernel/Context.ts):
first-match lookup by name, with the default for a missing `argv`, an
empty `argv`, or an absent name. -/
def Context.getInput (ctx : Context) (name : String) (defaultValue : Value) : Value :=
  match ctx.argv with
  | none => defaultValue
  | some argv =>
    if argv.isEmpty then defaultValue
    else
      match argv.find? (fun opt => opt.name == name) with
      | some it => it.value
      | none => defaultValue

/-- `AllowanceResult` (src/models/TransactionParameters.ts, second
class). -/
structure AllowanceResult where
  status : Bool
  message : Option String := none
deriving Repr, DecidableEq

/-- The failure classes of src/errors, plus two raw JS failure modes
that are not Governable classes: `networkError` for a network read
awaited outside any try/catch (which rejects the surrounding promise),
and `typeError` for a JS `TypeError` — raised when contract dispatch
resolves an inherited `Object.prototype` member instead of a contract
constructor (see `DistributedOrganization.getContract`). -/
inductive GovFailure where
  | missingArgument (message : String)
  | operationForbidden (message : String)
  | emptyContract (message : String)
  | invalidContract (message : String)
  | invalidAgreement (message : String)
  | networkError
  | typeError
deriving Repr, DecidableEq

/-- `BaseContract.assertHasMandatoryArguments(argv, fields)`
(src/kernel/BaseContract.ts, lines 137-150).  The `argv` parameter is
received but never read: the body looks every field up with
`this.context.getInput(field, null)` and throws on a `null` result. -/
def BaseContract.assertHasMandatoryArguments (ctx : Context)
    (argv : Option (List ContractOption)) : List String → Except GovFailure Bool
  | [] => .ok true
  | field :: fields =>
    if ctx.getInput field .null = .null then
      .error (.missingArgument ("Missing argument \x22" ++ field ++ "\x22"))
    else BaseContract.assertHasMandatoryArguments ctx argv fields

/-- `AssetIdentifier` (src/models): the deterministic governance asset
identifier; carries the target account (`this.target =
this.identifier.target` in `Executable`'s constructor). -/
structure AssetIdentifier where
  id : String
  target : PublicAccount
deriving Repr, DecidableEq

/-- Mosaic information, opaque to the embedded control flow. -/
structure MosaicInfo where
  tag : String
deriving Repr, DecidableEq

/-- `MetadataBucket` (src/models/MetadataBucket.ts). -/
structure MetadataBucket where
  name : String
  code : String
  website : String
  contact : String
  description : String
  image : String
deriving Repr, DecidableEq

/-- The instance state of an `Executable` contract
(src/contracts/Executable.ts): the execution context, the asset
identifier (providing `target`), and the synchronized data copied in by
the orchestrator. -/
structure Executable where
  context : Context
  identifier : AssetIdentifier
  agreement : Option AggregateTransaction := none
  operators : List Address := []
  mosaicInfo : Option MosaicInfo := none
  metadata : Option MetadataBucket := none
deriving Repr, DecidableEq

/-- `this.target`, assigned from `this.identifier.target`. -/
def Executable.target (self : Executable) : PublicAccount :=
  self.identifier.target

/-- `Executable.canExecute(actor, argv)` — the default "owner only"
policy (src/contracts/Executable.ts, lines 179-192): assert mandatory
arguments, then authorize exactly the target account.  `arguments` is
the instance field each concrete contract overrides. -/
def Executable.canExecute (self : Executable) (arguments : List String)
    (actor : PublicAccount) (argv : Option (List ContractOption)) :
    Except GovFailure AllowanceResult := do
  _ ← BaseContract.assertHasMandatoryArguments self.context argv arguments
  let isOperator := actor.address == self.target.address
  .ok ⟨isOperator, none⟩

/-- The abstract surface `Executable.execute` works through: the
overridable authorization policy and the deferred `transactions`
getter of a concrete contract. -/
structure ContractImpl where
  name : String
  canExecute : Executable → PublicAccount → Option (List ContractOption) →
    Except GovFailure AllowanceResult
  transactions : Executable → List Transaction

/-- `BaseContract.assertExecutionAllowance(actor, argv)`
(src/kernel/BaseContract.ts, lines 117-128): re-runs the authorization
check and escalates a negative status to a thrown
`FailureOperationForbidden`. -/
def BaseContract.assertExecutionAllowance (impl : ContractImpl)
    (self : Executable) (actor : PublicAccount)
    (argv : Option (List ContractOption)) : Except GovFailure Bool := do
  let authResult ← impl.canExecute self actor argv
  if ! authResult.status then
    .error (.operationForbidden ("Operation forbidden (" ++ impl.name ++ ")"))
  else .ok true

/-- `Executable.prepare()` (src/contracts/Executable.ts, lines 235-252):
throws `FailureEmptyContract` on an empty transaction list, otherwise
wraps the list in one aggregate bonded transaction. -/
def Executable.prepare (impl : ContractImpl) (self : Executable) :
    Except GovFailure AggregateTransaction :=
  if (impl.transactions self).isEmpty then
    .error (.emptyContract "No transactions result from the execution of this contract.")
  else .ok ⟨impl.transactions self⟩

/-- A transaction URI wrapping a serialized transaction
(symbol-uri-scheme), reduced to its payload. -/
structure TransactionURI where
  payload : AggregateTransaction
deriving Repr, DecidableEq

/-- `Executable.execute(actor, argv)` (src/contracts/Executable.ts,
lines 205-217): assert the execution allowance, prepare the digital
contract, format it as a transaction URI. -/
def Executable.execute (impl : ContractImpl) (self : Executable)
    (actor : PublicAccount) (argv : Option (List ContractOption)) :
    Except GovFailure TransactionURI := do
  _ ← BaseContract.assertExecutionAllowance impl self actor argv
  let contract ← Executable.prepare impl self
  .ok ⟨contract⟩

/-! ## The concrete contracts' authorization policies -/

/-- `CreateAgreement.arguments`. -/
def CreateAgreement.arguments : List String :=
  ["password", "mnemonic", "path", "operators"]

/-- `CreateAgreement.canExecute` (unnamed part_003, lines 97-110):
anyone may start a launch agreement while none is confirmed. -/
def CreateAgreement.canExecute (self : Executable) (actor : PublicAccount)
    (argv : Option (List ContractOption)) : Except GovFailure AllowanceResult := do
  _ ← BaseContract.assertHasMandatoryArguments self.context argv CreateAgreement.arguments
  .ok ⟨self.agreement.isNone, none⟩

/-- `CommitAgreement.arguments`. -/
def CommitAgreement.arguments : List String := ["target", "agreement"]

/-- `CommitAgreement.canExecute` (unnamed part_002, lines 110-127):
anyone may commit while no agreement is confirmed, provided the supplied
`target` option equals the deterministically derived target account. -/
def CommitAgreement.canExecute (self : Executable) (actor : PublicAccount)
    (argv : Option (List ContractOption)) : Except GovFailure AllowanceResult := do
  _ ← BaseContract.assertHasMandatoryArguments self.context argv CommitAgreement.arguments
  let newTarget := (self.context.getInput "target" (.account PublicAccount.blank)).asAccount
  .ok ⟨self.agreement.isNone && newTarget.address == self.target.address, none⟩

/-- `CreateDAO.arguments`. -/
def CreateDAO.arguments : List String := ["target", "operators", "metadata"]

/-- `CreateDAO.canExecute` (src/contracts/CreateDAO.ts, lines 156-174):
requires a confirmed agreement (`!!this.agreement`) and the correct
target account. -/
def CreateDAO.canExecute (self : Executable) (actor : PublicAccount)
    (argv : Option (List ContractOption)) : Except GovFailure AllowanceResult := do
  _ ← BaseContract.assertHasMandatoryArguments self.context argv CreateDAO.arguments
  let newTarget := (self.context.getInput "target" (.account PublicAccount.blank)).asAccount
  .ok ⟨self.agreement.isSome && newTarget.address == self.target.address, none⟩

/-- `CreateVote.arguments`. -/
def CreateVote.arguments : List String := ["operator"]

/-- `CreateVote.canExecute` (src/contracts/index.ts, lines 150-159):
after the mandatory-argument assertion it "allows anyone to start a new
key ceremony" — it returns a positive result unconditionally. -/
def CreateVote.canExecute (self : Executable) (actor : PublicAccount)
    (argv : Option (List ContractOption)) : Except GovFailure AllowanceResult := do
  _ ← BaseContract.assertHasMandatoryArguments self.context argv CreateVote.arguments
  .ok ⟨true, none⟩

/-- Modelled from the spec: the `Vote` contract implementation file is
missing from src/ (only its dispatch entry `DigitalContracts['Vote']`
and the `DAOContracts.Vote` alias appear).  Per the spec invariant
"until `confirmedAgreement` is set, only the 'create agreement' contract
may report a positive authorization; all others must refuse", its
authorization is negative whenever the agreement is unset; the spec
states neither its mandatory arguments nor its policy once an agreement
is confirmed, so the model takes no arguments as mandatory and a
positive result thereafter. -/
def Vote.canExecute (self : Executable) (actor : PublicAccount)
    (argv : Option (List ContractOption)) : Except GovFailure AllowanceResult :=
  .ok ⟨self.agreement.isSome, none⟩

/-! ## The distributed-organization orchestrator -/

/-- The synchronized organization-wide fields of
`DistributedOrganization` (unnamed part_006), written only by
`synchronize()`. -/
structure OrgState where
  agreement : Option AggregateTransaction := none
  mosaicInfo : Option MosaicInfo := none
  operators : List Address := []
  metadata : Option MetadataBucket := none
deriving Repr, DecidableEq

/-- Outcome of one awaited network read.  `success` delivers a value;
`obsError` is an error raised inside the rxjs observable (e.g. the HTTP
call failing); `syncThrow` is an exception thrown synchronously around
the await (e.g. while building the request). -/
inductive ReadOutcome (α : Type) where
  | success (value : α)
  | obsError
  | syncThrow
deriving Repr, DecidableEq

/-- `DistributedOrganization.synchronize()` (unnamed part_006, lines
345-400).  Network effects appear as explicit outcomes:
`readAgreement` for `TransactionService.readTransactionFromNetwork`
(awaited outside any try/catch, so a failure rejects `synchronize()`
itself — embedded as `networkError`); `verifyAuthenticity` abstracts
`AgreementService.verifyAuthenticity` (unnamed part_004: a pure check of
the agreement's shape and payloads — kept here as a boolean parameter
because its proof-string comparisons read transaction fields this
embedding elides, and both of its outcomes are realizable: `false` for
e.g. an aggregate without exactly three embedded transactions, `true`
for a well-formed committed agreement);
`readMosaic` for `mosaicHttp.getMosaic(...)`, whose pipe
`catchError(e => of(undefined))` turns an observable error into a
resolved `undefined` that the source then assigns to `this.mosaicInfo`,
while a synchronous throw lands in the surrounding `try/catch` and
leaves the field untouched; `readGraph` for
`multisigHttp.getMultisigAccountGraphInfo`, already reduced to the
per-account cosignatory address lists
(`getMultisigAccountInfoFromGraph(graph).map(m => m.cosignatoryAddresses)`)
— the trailing `reduce(concat)` throws on an empty array, which the
`try/catch` also swallows; `readMetadata` for
`MetadataService.readMetadataFromNetwork`. -/
def DistributedOrganization.synchronize (st : OrgState)
    (agreementHash : Option String)
    (readAgreement : ReadOutcome AggregateTransaction)
    (verifyAuthenticity : AggregateTransaction → Bool)
    (readMosaic : ReadOutcome MosaicInfo)
    (readGraph : ReadOutcome (List (List Address)))
    (readMetadata : ReadOutcome MetadataBucket) :
    Except GovFailure (OrgState × Bool) :=
  -- `if (this.agreementHash && this.agreementHash.length) {...} else return true`
  if (agreementHash.getD "").isEmpty then .ok (st, true)
  else
    match readAgreement with
    | .success agreement =>
      let st₁ := { st with agreement := some agreement }
      if verifyAuthenticity agreement = false then
        .error (.invalidAgreement "Authenticity verification failed for DAO launch agreement.")
      else
        let st₂ := match readMosaic with
          | .success v => { st₁ with mosaicInfo := some v }
          | .obsError => { st₁ with mosaicInfo := none }
          | .syncThrow => st₁
        let st₃ := match readGraph with
          | .success graph =>
            if graph.isEmpty then st₂
            else { st₂ with operators := graph.join }
          | _ => st₂
        let st₄ := match readMetadata with
          | .success m => { st₃ with metadata := some m }
          | _ => st₃
        .ok (st₄, true)
    | _ => .error .networkError

/-- `Governable.Revision` (unnamed part_006, line 127). -/
def Revision : Nat := 1

/-- The own property names of `Governable.DigitalContracts` (unnamed
part_006, lines 87-93): the fixed dispatch table from contract name to
constructor.  The source value is a plain JS object literal, so besides
these five own properties it also *inherits* the members of
`Object.prototype` (listed in `objectPrototypeMembers`). -/
def DigitalContracts : List String :=
  ["CreateAgreement", "CommitAgreement", "CreateDAO", "CreateVote", "Vote"]

/-- The property names a plain object literal inherits from
`Object.prototype` (data and accessor properties, Annex B included).
For each of these names `DigitalContracts[command]` yields the inherited
member — a function, or `Object.prototype` itself for `__proto__` — all
of which are truthy, so the `!DigitalContracts[command]` guard does not
fire. -/
def objectPrototypeMembers : List String :=
  ["constructor", "hasOwnProperty", "isPrototypeOf", "propertyIsEnumerable",
   "toLocaleString", "toString", "valueOf", "__proto__",
   "__defineGetter__", "__defineSetter__", "__lookupGetter__", "__lookupSetter__"]

/-- A constructed contract as the orchestrator uses it after
`getContract`: populate the synchronized data, then call `canExecute` or
`execute` on it (the populated fields appear as the `OrgState`
argument). -/
structure ContractBehavior where
  canExecute : OrgState → PublicAccount → Option (List ContractOption) →
    Except GovFailure AllowanceResult
  execute : OrgState → PublicAccount → Option (List ContractOption) →
    Except GovFailure TransactionURI

/-- The five constructors of `DigitalContracts`, abstracted as a
function from the contract name (the unknown-name dispatch path never
invokes any of them, so the claims below hold for every table). -/
abbrev ContractsTable := String → Context → AssetIdentifier → ContractBehavior

/-- `DistributedOrganization.getContext(actor, parameters, argv)`
(unnamed part_006, lines 535-548). -/
def DistributedOrganization.getContext (actor : PublicAccount)
    (parameters : TransactionParameters) (argv : Option (List ContractOption)) :
    Context :=
  ⟨Revision, actor, parameters, argv⟩

/-- `DistributedOrganization.getContract(governAssetId, command,
context)` (unnamed part_006, lines 562-573).  The guard is
`!DigitalContracts || !DigitalContracts[command]`, a truthiness test of
the *prototype-chain* property lookup: one of the five own properties
resolves a constructor; a name `DigitalContracts` inherits from
`Object.prototype` (e.g. `toString`, `constructor`, `__proto__`) is also
truthy, so the guard passes and `DigitalContracts[command](context,
governAssetId)` is evaluated — it either throws a `TypeError` at once
(`__proto__` resolves to the non-callable `Object.prototype`) or returns
a non-contract value (a string for `toString`, the `context` object for
`constructor`, a boolean for `hasOwnProperty`, ...) on which the
caller's next member access or `canExecute`/`execute` invocation throws
a `TypeError`; in every such run a raw `TypeError` surfaces from the
organization operation before any contract's logic runs, embedded here
as `typeError` at resolution.  Every other name throws
`FailureInvalidContract` before any contract is constructed. -/
def DistributedOrganization.getContract (impls : ContractsTable)
    (governAssetId : AssetIdentifier) (command : String) (context : Context) :
    Except GovFailure ContractBehavior :=
  if DigitalContracts.contains command then .ok (impls command context governAssetId)
  else if objectPrototypeMembers.contains command then .error .typeError
  else .error (.invalidContract "Invalid digital contract name.")

/-- `DistributedOrganization.canExecute(actor, governAssetId, contract,
argv)` (unnamed part_006, lines 414-433): build a context, resolve the
named contract, populate the synchronized data, delegate. -/
def DistributedOrganization.canExecute (impls : ContractsTable) (st : OrgState)
    (actor : PublicAccount) (governAssetId : AssetIdentifier)
    (contract : String) (argv : List ContractOption) :
    Except GovFailure AllowanceResult := do
  let params : TransactionParameters := {}
  let context := DistributedOrganization.getContext actor params (some argv)
  let cmdFn ← DistributedOrganization.getContract impls governAssetId contract context
  cmdFn.canExecute st actor (some argv)

/-- `DistributedOrganization.execute(actor, governAssetId, contract,
parameters, argv)` (unnamed part_006, lines 449-477): always run
`synchronize()` first, then resolve, populate and delegate to the
contract's `execute`; every failure propagates unchanged (the source's
catch block rethrows). -/
def DistributedOrganization.execute (impls : ContractsTable) (st : OrgState)
    (agreementHash : Option String)
    (readAgreement : ReadOutcome AggregateTransaction)
    (verifyAuthenticity : AggregateTransaction → Bool)
    (readMosaic : ReadOutcome MosaicInfo)
    (readGraph : ReadOutcome (List (List Address)))
    (readMetadata : ReadOutcome MetadataBucket)
    (actor : PublicAccount) (governAssetId : AssetIdentifier)
    (contract : String) (parameters : TransactionParameters)
    (argv : List ContractOption) : Except GovFailure TransactionURI := do
  let (st₁, _) ← DistributedOrganization.synchronize st agreementHash
    readAgreement verifyAuthenticity readMosaic readGraph readMetadata
  let context := DistributedOrganization.getContext actor parameters (some argv)
  let cmdFn ← DistributedOrganization.getContract impls governAssetId contract context
  cmdFn.execute st₁ actor (some argv)

/-- `DistributedOrganization.executeOffline(...)` (unnamed part_006,
lines 495-522): identical to `execute` but deliberately without the
`synchronize()` call. -/
def DistributedOrganization.executeOffline (impls : ContractsTable)
    (st : OrgState) (actor : PublicAccount) (governAssetId : AssetIdentifier)
    (contract : String) (parameters : TransactionParameters)
    (argv : List ContractOption) : Except GovFailure TransactionURI := do
  let context := DistributedOrganization.getContext actor parameters (some argv)
  let cmdFn ← DistributedOrganization.getContract impls governAssetId contract context
  cmdFn.execute st actor (some argv)

/-! ## Walk variants following the specification's words

Two variants of the positional walk transcribe what the specification
asserts about the repeatable branch, to be compared with the walk
embedded from the source (`validateLoop`).  Each differs from
`validateLoop` in exactly one spot. -/

/-- The walk as claim C2's words describe it: identical to
`validateLoop` except that a repeatable entry found with zero full
repetitions is "not treated as an error" — the walk proceeds past the
bundle instead of failing. -/
def validateLoopNoLowerBound (sequence : List TaxonomyMapEntry)
    (semantics : List (Nat × SemanticRuleset)) (ctrTxes : List Transaction) :
    Nat → Nat → Nat → Nat → Bool
  | 0, _, _, _ => true
  | fuel + 1, i, skip, bundled =>
    match sequence.get? i with
    | none => true
    | some entry =>
      let cursor := i - skip + bundled
      let innerTx := ctrTxes.get? cursor
      if entry.required = false then
        let skip₁ := if innerTx.map (·.type) != some entry.type then skip + 1 else skip
        validateLoopNoLowerBound sequence semantics ctrTxes fuel (i + 1) skip₁ bundled
      else
        match semanticsGet semantics i with
        | some rules =>
          if rules.repeatable then
            let trxes := ctrTxes.drop cursor
            let bundle := bundleAt sequence i rules
            let numOccurences := Taxonomy.validateBundle bundle trxes
            validateLoopNoLowerBound sequence semantics ctrTxes fuel
              (i + bundle.length + 1) skip (bundled + numOccurences * bundle.length)
          else if innerTx.map (·.type) != some entry.type then false
          else validateLoopNoLowerBound sequence semantics ctrTxes fuel (i + 1) skip bundled
        | none =>
          if innerTx.map (·.type) != some entry.type then false
          else validateLoopNoLowerBound sequence semantics ctrTxes fuel (i + 1) skip bundled

/-- `Taxonomy.validate` with the walk of `validateLoopNoLowerBound`. -/
def Taxonomy.validateNoLowerBound (t : Taxonomy) (contract : AggregateTransaction) : Bool :=
  if contract.innerTransactions.isEmpty then false
  else if t.registeredTypes.isEmpty then false
  else if ! contract.innerTransactions.all (fun tx => t.acceptsType tx.type) then false
  else validateLoopNoLowerBound t.sequence t.semantics contract.innerTransactions
    t.sequence.length 0 0 0

/-- The walk as claim C3's words describe it: identical to
`validateLoop` except that after a repeatable bundle of length `L` the
next grammar entry examined is the one at position `i + L` (the source
instead resumes at `i + L + 1`, because the loop header increments the
mutated index once more). -/
def validateLoopAdvanceL (sequence : List TaxonomyMapEntry)
    (semantics : List (Nat × SemanticRuleset)) (ctrTxes : List Transaction) :
    Nat → Nat → Nat → Nat → Bool
  | 0, _, _, _ => true
  | fuel + 1, i, skip, bundled =>
    match sequence.get? i with
    | none => true
    | some entry =>
      let cursor := i - skip + bundled
      let innerTx := ctrTxes.get? cursor
      if entry.required = false then
        let skip₁ := if innerTx.map (·.type) != some entry.type then skip + 1 else skip
        validateLoopAdvanceL sequence semantics ctrTxes fuel (i + 1) skip₁ bundled
      else
        match semanticsGet semantics i with
        | some rules =>
          if rules.repeatable then
            let trxes := ctrTxes.drop cursor
            let bundle := bundleAt sequence i rules
            let numOccurences := Taxonomy.validateBundle bundle trxes
            if numOccurences = 0 then false
            else
              validateLoopAdvanceL sequence semantics ctrTxes fuel
                (i + bundle.length) skip (bundled + numOccurences * bundle.length)
          else if innerTx.map (·.type) != some entry.type then false
          else validateLoopAdvanceL sequence semantics ctrTxes fuel (i + 1) skip bundled
        | none =>
          if innerTx.map (·.type) != some entry.type then false
          else validateLoopAdvanceL sequence semantics ctrTxes fuel (i + 1) skip bundled

/-- `Taxonomy.validate` with the walk of `validateLoopAdvanceL`. -/
def Taxonomy.validateAdvanceL (t : Taxonomy) (contract : AggregateTransaction) : Bool :=
  if contract.innerTransactions.isEmpty then false
  else if t.registeredTypes.isEmpty then false
  else if ! contract.innerTransactions.all (fun tx => t.acceptsType tx.type) then false
  else validateLoopAdvanceL t.sequence t.semantics contract.innerTransactions
    t.sequence.length 0 0 0

/-! ## Concrete fixtures used by counterexamples and witnesses -/

/-- A sample actor account. -/
def actorA : PublicAccount := ⟨"pk-actor", "addr-actor"⟩

/-- The deterministically derived target account of the organization. -/
def targetA : PublicAccount := ⟨"pk-target", "addr-target"⟩

/-- A sample governance asset identifier. -/
def aidA : AssetIdentifier := ⟨"9e03faa1", targetA⟩

/-- A sample confirmed agreement aggregate. -/
def agA : AggregateTransaction := ⟨[⟨TransactionType.TRANSFER⟩]⟩

/-- A sample mosaic-information record. -/
def mosA : MosaicInfo := ⟨"governance-mosaic"⟩

/-- A sample metadata bucket. -/
def mdA : MetadataBucket := ⟨"SWAPS CLOUD", "87", "w", "c", "d", "i"⟩

/-- Grammar with a required entry followed by a required repeatable
entry whose bundle has length one (semantic rule at position 1). -/
def taxZeroRep : Taxonomy :=
  { name := "zero-repetitions"
    sequence := [⟨TransactionType.TRANSFER, true⟩, ⟨TransactionType.ACCOUNT_METADATA, true⟩]
    semantics := [(1, ⟨[1], true, 1, 0⟩)] }

/-- Grammar with a required repeatable entry (bundle length one) at
position 0 followed by a required entry at position 1. -/
def taxAdvance : Taxonomy :=
  { name := "advance-past-bundle"
    sequence := [⟨TransactionType.TRANSFER, true⟩, ⟨TransactionType.ACCOUNT_METADATA, true⟩]
    semantics := [(0, ⟨[0], true, 1, 0⟩)] }

/-- Grammar holding exactly one optional entry of type `TRANSFER`. -/
def taxSingleOptional : Taxonomy :=
  { name := "single-optional"
    sequence := [⟨TransactionType.TRANSFER, false⟩] }

/-! ## C5 — empty candidate or empty grammar never validates -/

/-- C5: for every grammar `G` and candidate aggregate `S`,
`Taxonomy.validate` returns `false` whenever `S`'s inner transaction
list is empty or `G`'s entries mapping is empty. -/
theorem governable_C5_empty_never_validates (t : Taxonomy)
    (c : AggregateTransaction)
    (h : c.innerTransactions = [] ∨ t.sequence = []) :
    t.validate c = false := by
  rcases h with h | h
  · simp [Taxonomy.validate, h]
  · have hreg : t.registeredTypes = [] := by
      simp [Taxonomy.registeredTypes, Taxonomy.getTransactionTypes, h]
    simp [Taxonomy.validate, hreg]

/-- C5 witness: an empty grammar rejects a non-empty candidate. -/
theorem governable_C5_witness :
    Taxonomy.validate ⟨"empty", [], [], []⟩ ⟨[⟨TransactionType.TRANSFER⟩]⟩ = false :=
  governable_C5_empty_never_validates _ _ (Or.inr rfl)

/-! ## C4 — single optional entry: the empty candidate is rejected -/

/-- C4 counterexample: for the grammar with exactly one optional entry
of type `TRANSFER`, the claim asserts `validate` is `true` both for the
candidate with no operations and for the single-operation candidate; the
code rejects every empty candidate up front, so the conjunction fails. -/
theorem governable_C4_counterexample :
    ¬ (taxSingleOptional.validate ⟨[]⟩ = true ∧
       taxSingleOptional.validate ⟨[⟨TransactionType.TRANSFER⟩]⟩ = true) := by
  decide

/-- C4 amended: for a grammar with exactly one optional entry of
(JS-truthy) type `ty`, `validate` returns `false` on the empty candidate
(the empty-contract boundary rejects it) and `true` on the candidate
holding exactly one operation of type `ty`. -/
theorem governable_C4_single_optional (ty : TransactionType) (h : ty ≠ 0) :
    Taxonomy.validate ⟨"g", [⟨ty, false⟩], [], []⟩ ⟨[]⟩ = false ∧
    Taxonomy.validate ⟨"g", [⟨ty, false⟩], [], []⟩ ⟨[⟨ty⟩]⟩ = true := by
  have h0 : (ty != 0) = true := by simpa using h
  refine ⟨rfl, ?_⟩
  simp [Taxonomy.validate, Taxonomy.registeredTypes, Taxonomy.getTransactionTypes,
    Taxonomy.acceptsType, validateLoop, semanticsGet, h0]

/-- C4 witness: the amended claim at `ty = TRANSFER`. -/
theorem governable_C4_witness :
    Taxonomy.validate ⟨"g", [⟨16724, false⟩], [], []⟩ ⟨[]⟩ = false ∧
    Taxonomy.validate ⟨"g", [⟨16724, false⟩], [], []⟩ ⟨[⟨16724⟩]⟩ = true :=
  governable_C4_single_optional 16724 (by decide)

/-! ## C2 — a repeatable entry found zero times fails the walk -/

/-- C2 counterexample: on the grammar `taxZeroRep` (required `TRANSFER`,
then required repeatable `ACCOUNT_METADATA` bundle of length one) and
the candidate `[TRANSFER]`, zero full repetitions of the bundle are
found at the cursor, and `validate` returns `false` — whereas the walk
transcribed from the claim's words (`validateNoLowerBound`, identical
except that zero repetitions are not an error) accepts. -/
theorem governable_C2_counterexample :
    taxZeroRep.validate ⟨[⟨TransactionType.TRANSFER⟩]⟩ = false ∧
    taxZeroRep.validateNoLowerBound ⟨[⟨TransactionType.TRANSFER⟩]⟩ = true := by
  decide

/-- C2 amended: when the walk reaches a required entry carrying a
semantic rule with `repeatable = true` and `validateBundle` finds zero
full repetitions of its bundle at the cursor, the walk fails validation
immediately (`if (!(numOccurences = this.validateBundle(...)))
return false`) — an implicit lower bound of one repetition, even though
the `minOccurences` field itself is never consulted. -/
theorem governable_C2_zero_repetitions_fail (sequence : List TaxonomyMapEntry)
    (semantics : List (Nat × SemanticRuleset)) (txs : List Transaction)
    (fuel i skip bundled : Nat) (entry : TaxonomyMapEntry) (rules : SemanticRuleset)
    (hentry : sequence.get? i = some entry) (hreq : entry.required = true)
    (hrules : semanticsGet semantics i = some rules) (hrep : rules.repeatable = true)
    (hzero : Taxonomy.validateBundle (bundleAt sequence i rules)
      (txs.drop (i - skip + bundled)) = 0) :
    validateLoop sequence semantics txs (fuel + 1) i skip bundled = false := by
  simp only [validateLoop]
  rw [hentry]
  simp [hreq, hrules, hrep, hzero]

/-- C2 witness: the amended claim at the `taxZeroRep` scenario
(position 1, cursor 1, candidate `[TRANSFER]`). -/
theorem governable_C2_witness :
    validateLoop taxZeroRep.sequence taxZeroRep.semantics
      [⟨TransactionType.TRANSFER⟩] (1 + 1) 1 0 0 = false :=
  governable_C2_zero_repetitions_fail _ _ _ 1 1 0 0
    ⟨TransactionType.ACCOUNT_METADATA, true⟩ ⟨[1], true, 1, 0⟩ rfl rfl rfl rfl rfl

/-! ## C3 — the walk resumes at `i + L + 1`, not `i + L` -/

/-- C3 counterexample: on the grammar `taxAdvance` (required repeatable
`TRANSFER` bundle of length `L = 1` at position 0, then required
`ACCOUNT_METADATA` at position 1) and the candidate `[TRANSFER]`, the
code accepts — the walk resumes at position `i + L + 1 = 2`, never
examining the required entry at position `i + L = 1` — whereas the walk
transcribed from the claim's words (`validateAdvanceL`, identical except
that it resumes at `i + L`) examines position 1 and rejects. -/
theorem governable_C3_counterexample :
    taxAdvance.validate ⟨[⟨TransactionType.TRANSFER⟩]⟩ = true ∧
    taxAdvance.validateAdvanceL ⟨[⟨TransactionType.TRANSFER⟩]⟩ = false := by
  decide

/-- C3 amended: when the walk handles a repeatable entry at position `i`
whose collected bundle has length `L = bundleWith.length` and
`validateBundle` finds `n ≠ 0` repetitions, it adds `n × L` to the
`bundled` counter but resumes at grammar position `i + L + 1` — the
body's `i = i + bundle.length` plus the loop header's increment — so the
entry at position `i + L` is never examined. -/
theorem governable_C3_advances_past_bundle (sequence : List TaxonomyMapEntry)
    (semantics : List (Nat × SemanticRuleset)) (txs : List Transaction)
    (fuel i skip bundled n : Nat) (entry : TaxonomyMapEntry) (rules : SemanticRuleset)
    (hentry : sequence.get? i = some entry) (hreq : entry.required = true)
    (hrules : semanticsGet semantics i = some rules) (hrep : rules.repeatable = true)
    (hL : (bundleAt sequence i rules).length = rules.bundleWith.length)
    (hn : Taxonomy.validateBundle (bundleAt sequence i rules)
      (txs.drop (i - skip + bundled)) = n)
    (hnz : n ≠ 0) :
    validateLoop sequence semantics txs (fuel + 1) i skip bundled =
      validateLoop sequence semantics txs fuel (i + rules.bundleWith.length + 1)
        skip (bundled + n * rules.bundleWith.length) := by
  simp only [validateLoop]
  rw [hentry]
  simp [hreq, hrules, hrep, hn, hnz, hL]

/-- C3 witness: the amended claim at the `taxAdvance` scenario
(position 0, bundle length 1, one repetition found). -/
theorem governable_C3_witness :
    validateLoop taxAdvance.sequence taxAdvance.semantics
      [⟨TransactionType.TRANSFER⟩] (1 + 1) 0 0 0 =
    validateLoop taxAdvance.sequence taxAdvance.semantics
      [⟨TransactionType.TRANSFER⟩] 1 (0 + 1 + 1) 0 (0 + 1 * 1) :=
  governable_C3_advances_past_bundle _ _ _ 1 0 0 0 1
    ⟨TransactionType.TRANSFER, true⟩ ⟨[0], true, 1, 0⟩ rfl rfl rfl rfl rfl rfl
    (by decide)

/-- Reduction of an `Except` bind on a success value. -/
theorem exceptOkBind {ε α β : Type} (a : α) (f : α → Except ε β) :
    (Except.ok a : Except ε α) >>= f = f a := rfl

/-- Reduction of an `Except` bind on an error value. -/
theorem exceptErrorBind {ε α β : Type} (e : ε) (f : α → Except ε β) :
    (Except.error e : Except ε α) >>= f = Except.error e := rfl

/-! ## C10 — `setAcceptsRepeat` never changes `validate` -/

/-- `setAcceptsRepeat` touches no field other than `repeatableTypes`. -/
theorem Taxonomy.setAcceptsRepeat_fields (t : Taxonomy) (ty : TransactionType) :
    (t.setAcceptsRepeat ty).name = t.name ∧
    (t.setAcceptsRepeat ty).sequence = t.sequence ∧
    (t.setAcceptsRepeat ty).semantics = t.semantics := by
  unfold Taxonomy.setAcceptsRepeat
  split
  · exact ⟨rfl, rfl, rfl⟩
  · split
    · exact ⟨rfl, rfl, rfl⟩
    · exact ⟨rfl, rfl, rfl⟩

/-- `validate` reads only `sequence` and `semantics`; replacing the
`repeatableTypes` field wholesale leaves its result unchanged. -/
theorem Taxonomy.validate_repeatableTypes_irrelevant (t : Taxonomy)
    (rts : List TransactionType) (c : AggregateTransaction) :
    Taxonomy.validate { t with repeatableTypes := rts } c = t.validate c := rfl

/-- One `setAcceptsRepeat` call leaves `validate` unchanged. -/
theorem Taxonomy.validate_setAcceptsRepeat (t : Taxonomy)
    (ty : TransactionType) (c : AggregateTransaction) :
    (t.setAcceptsRepeat ty).validate c = t.validate c := by
  unfold Taxonomy.setAcceptsRepeat
  split
  · rfl
  · split
    · exact Taxonomy.validate_repeatableTypes_irrelevant t _ c
    · rfl

/-- Any sequence of `setAcceptsRepeat` calls leaves `validate`
unchanged. -/
theorem Taxonomy.validate_foldl_setAcceptsRepeat
    (tys : List TransactionType) (t : Taxonomy) (c : AggregateTransaction) :
    (tys.foldl Taxonomy.setAcceptsRepeat t).validate c = t.validate c := by
  induction tys generalizing t with
  | nil => rfl
  | cons ty tys ih =>
    rw [List.foldl_cons, ih, Taxonomy.validate_setAcceptsRepeat]

/-- C10: `setAcceptsRepeat` mutates only `repeatableTypes` (and nothing
at all when the given type is not registered); `validate` never reads
`repeatableTypes`, so its outcome is unchanged by any sequence of
`setAcceptsRepeat` calls. -/
theorem governable_C10_setAcceptsRepeat_frame (t : Taxonomy)
    (ty₁ ty₀ : TransactionType) (tys rts : List TransactionType)
    (c : AggregateTransaction) (h : ty₀ ∉ t.registeredTypes) :
    (t.setAcceptsRepeat ty₁).name = t.name ∧
    (t.setAcceptsRepeat ty₁).sequence = t.sequence ∧
    (t.setAcceptsRepeat ty₁).semantics = t.semantics ∧
    t.setAcceptsRepeat ty₀ = t ∧
    Taxonomy.validate { t with repeatableTypes := rts } c = t.validate c ∧
    (tys.foldl Taxonomy.setAcceptsRepeat t).validate c = t.validate c := by
  obtain ⟨h₁, h₂, h₃⟩ := Taxonomy.setAcceptsRepeat_fields t ty₁
  refine ⟨h₁, h₂, h₃, ?_, Taxonomy.validate_repeatableTypes_irrelevant t rts c, ?_⟩
  · simp [Taxonomy.setAcceptsRepeat, h]
  · exact Taxonomy.validate_foldl_setAcceptsRepeat tys t c

/-- C10 witness: a `setAcceptsRepeat` call with an unregistered type on
the `taxAdvance` grammar, followed by a two-call sequence, leaves
`validate` unchanged. -/
theorem governable_C10_witness :
    (taxAdvance.setAcceptsRepeat 16724).name = taxAdvance.name ∧
    (taxAdvance.setAcceptsRepeat 16724).sequence = taxAdvance.sequence ∧
    (taxAdvance.setAcceptsRepeat 16724).semantics = taxAdvance.semantics ∧
    taxAdvance.setAcceptsRepeat 99 = taxAdvance ∧
    Taxonomy.validate { taxAdvance with repeatableTypes := [16724] }
      ⟨[⟨TransactionType.TRANSFER⟩]⟩ = taxAdvance.validate ⟨[⟨TransactionType.TRANSFER⟩]⟩ ∧
    ([16724, 16708].foldl Taxonomy.setAcceptsRepeat taxAdvance).validate
      ⟨[⟨TransactionType.TRANSFER⟩]⟩ = taxAdvance.validate ⟨[⟨TransactionType.TRANSFER⟩]⟩ :=
  governable_C10_setAcceptsRepeat_frame taxAdvance 16724 99 [16724, 16708] [16724]
    ⟨[⟨TransactionType.TRANSFER⟩]⟩ (by decide)

/-! ## C9 — `canExecute` does not depend on its `argv` parameter -/

/-- The mandatory-argument assertion ignores its `argv` parameter (the
body reads inputs from the stored context only). -/
theorem BaseContract.assertHasMandatoryArguments_argv (ctx : Context)
    (argv₁ argv₂ : Option (List ContractOption)) : ∀ fields,
    BaseContract.assertHasMandatoryArguments ctx argv₁ fields =
      BaseContract.assertHasMandatoryArguments ctx argv₂ fields := by
  intro fields
  induction fields with
  | nil => rfl
  | cons f fs ih => simp [BaseContract.assertHasMandatoryArguments, ih]

/-- C9: `Executable.canExecute`'s result does not depend on the `argv`
parameter passed to it — the mandatory-argument assertion and the
default authorization policy read inputs only from the contract's stored
execution context, so any two `argv` values (including `undefined`,
i.e. `none`) produce the same result or raise the same failure. -/
theorem governable_C9_canExecute_argv_independent (self : Executable)
    (arguments : List String) (actor : PublicAccount)
    (argv₁ argv₂ : Option (List ContractOption)) :
    Executable.canExecute self arguments actor argv₁ =
      Executable.canExecute self arguments actor argv₂ := by
  simp only [Executable.canExecute,
    BaseContract.assertHasMandatoryArguments_argv self.context argv₁ argv₂]

/-! ## C6 — `execute` re-checks authorization, then rejects empty builds -/

/-- C6: for any concrete contract (any override of `canExecute` and the
`transactions` getter), `Executable.execute` re-runs the authorization
check and throws `FailureOperationForbidden` whenever its status is
negative; with a positive status it throws `FailureEmptyContract`
whenever the deferred transaction list is empty; and only when both
checks pass does it return a transaction URI wrapping the aggregate of
that list. -/
theorem governable_C6_execute_control_flow (impl : ContractImpl)
    (self : Executable) (actor : PublicAccount)
    (argv : Option (List ContractOption)) (r : AllowanceResult)
    (hok : impl.canExecute self actor argv = .ok r) :
    (r.status = false →
      Executable.execute impl self actor argv =
        .error (.operationForbidden ("Operation forbidden (" ++ impl.name ++ ")"))) ∧
    (r.status = true → impl.transactions self = [] →
      Executable.execute impl self actor argv =
        .error (.emptyContract "No transactions result from the execution of this contract.")) ∧
    (r.status = true → impl.transactions self ≠ [] →
      Executable.execute impl self actor argv = .ok ⟨⟨impl.transactions self⟩⟩) := by
  refine ⟨fun hs => ?_, fun hs he => ?_, fun hs he => ?_⟩
  · simp [Executable.execute, BaseContract.assertExecutionAllowance, hok, hs,
      exceptOkBind, exceptErrorBind]
  · simp [Executable.execute, BaseContract.assertExecutionAllowance,
      Executable.prepare, hok, hs, he, exceptOkBind, exceptErrorBind]
  · simp [Executable.execute, BaseContract.assertExecutionAllowance,
      Executable.prepare, hok, hs, he, exceptOkBind, exceptErrorBind]

/-- A contract implementation whose policy refuses everyone and which
builds a single transfer. -/
def implRefuse : ContractImpl :=
  ⟨"Refuse", fun _ _ _ => .ok ⟨false, none⟩, fun _ => [⟨TransactionType.TRANSFER⟩]⟩

/-- A sample execution context with no inputs. -/
def ctxA : Context := ⟨1, actorA, {}, none⟩

/-- A sample executable state (no confirmed agreement). -/
def selfA : Executable := ⟨ctxA, aidA, none, [], none, none⟩

/-- C6 witness: the refusing contract's `execute` throws
`FailureOperationForbidden`. -/
theorem governable_C6_witness :
    Executable.execute implRefuse selfA actorA none =
      .error (.operationForbidden "Operation forbidden (Refuse)") :=
  (governable_C6_execute_control_flow implRefuse selfA actorA none
    ⟨false, none⟩ rfl).1 rfl

/-! ## C1 — authorization with the agreement unset -/

/-- Contract options satisfying the mandatory arguments of all five
contracts, with the `target` option equal to the derived target. -/
def argvAll : List ContractOption :=
  [⟨"password", .raw "pw"⟩, ⟨"mnemonic", .raw "words"⟩, ⟨"path", .raw "m44"⟩,
   ⟨"operators", .raw "ops"⟩, ⟨"target", .account targetA⟩,
   ⟨"agreement", .account ⟨"pk-agree", "addr-agree"⟩⟩, ⟨"metadata", .raw "md"⟩,
   ⟨"operator", .raw "op1"⟩]

/-- An executable state with no confirmed agreement whose context holds
`argvAll`. -/
def selfNoAgreement : Executable := ⟨⟨1, actorA, {}, some argvAll⟩, aidA, none, [], none, none⟩

/-- C1 counterexample: with the agreement unset and its mandatory
`operator` argument present, `CreateVote.canExecute` — a contract other
than `CreateAgreement` — returns a result with `status = true`, where
the claim requires `status = false`.  (`CommitAgreement` likewise
returns `status = true` here, as `governable_C1_agreement_unset` shows.) -/
theorem governable_C1_counterexample :
    selfNoAgreement.agreement = none ∧
    CreateVote.canExecute selfNoAgreement actorA (some argvAll) = .ok ⟨true, none⟩ :=
  ⟨rfl, rfl⟩

/-- C1 amended: with the agreement unset and every mandatory argument
present, `CreateAgreement.canExecute` and `CreateVote.canExecute` return
`status = true` unconditionally; `CommitAgreement.canExecute` returns
`status = true` exactly when the supplied `target` option equals the
derived target account; `CreateDAO.canExecute` returns `status = false`
(it requires a confirmed agreement); and the spec-modelled `Vote`
returns `status = false`. -/
theorem governable_C1_agreement_unset (self : Executable)
    (actor : PublicAccount) (argv : Option (List ContractOption))
    (hag : self.agreement = none)
    (h₁ : BaseContract.assertHasMandatoryArguments self.context argv
      CreateAgreement.arguments = .ok true)
    (h₂ : BaseContract.assertHasMandatoryArguments self.context argv
      CommitAgreement.arguments = .ok true)
    (h₃ : BaseContract.assertHasMandatoryArguments self.context argv
      CreateDAO.arguments = .ok true)
    (h₄ : BaseContract.assertHasMandatoryArguments self.context argv
      CreateVote.arguments = .ok true) :
    CreateAgreement.canExecute self actor argv = .ok ⟨true, none⟩ ∧
    CreateVote.canExecute self actor argv = .ok ⟨true, none⟩ ∧
    CommitAgreement.canExecute self actor argv =
      .ok ⟨(self.context.getInput "target" (.account PublicAccount.blank)).asAccount.address
            == self.target.address, none⟩ ∧
    CreateDAO.canExecute self actor argv = .ok ⟨false, none⟩ ∧
    Vote.canExecute self actor argv = .ok ⟨false, none⟩ := by
  refine ⟨?_, ?_, ?_, ?_, ?_⟩
  · simp [CreateAgreement.canExecute, h₁, hag, exceptOkBind]
  · simp [CreateVote.canExecute, h₄, exceptOkBind]
  · simp [CommitAgreement.canExecute, h₂, hag, exceptOkBind]
  · simp [CreateDAO.canExecute, h₃, hag, exceptOkBind]
  · simp [Vote.canExecute, hag]

/-- C1 witness: the amended claim at `selfNoAgreement` and `argvAll`
(where the supplied target matches the derived one). -/
theorem governable_C1_witness :
    CreateAgreement.canExecute selfNoAgreement actorA (some argvAll) = .ok ⟨true, none⟩ ∧
    CreateVote.canExecute selfNoAgreement actorA (some argvAll) = .ok ⟨true, none⟩ ∧
    CommitAgreement.canExecute selfNoAgreement actorA (some argvAll) =
      .ok ⟨(selfNoAgreement.context.getInput "target"
              (.account PublicAccount.blank)).asAccount.address
            == selfNoAgreement.target.address, none⟩ ∧
    CreateDAO.canExecute selfNoAgreement actorA (some argvAll) = .ok ⟨false, none⟩ ∧
    Vote.canExecute selfNoAgreement actorA (some argvAll) = .ok ⟨false, none⟩ :=
  governable_C1_agreement_unset selfNoAgreement actorA (some argvAll)
    rfl rfl rfl rfl rfl

/-! ## C7 — best-effort reads during `synchronize()` -/

/-- An organization state that has previously synchronized a mosaic
record and an operator. -/
def stPrev : OrgState :=
  { agreement := none, mosaicInfo := some mosA, operators := ["addr-op-old"], metadata := none }

/-- C7 counterexample: with agreement authenticity verified, a failed
asset-info read (the observable errors, e.g. the HTTP call fails) does
not leave `mosaicInfo` at its previous value `some mosA`: the
`catchError(e => of(undefined))` pipe resolves to `undefined`, which
`synchronize()` assigns over the field.  `synchronize()` still returns
`true` and the other two reads still land. -/
theorem governable_C7_counterexample :
    DistributedOrganization.synchronize stPrev (some "ab12") (.success agA)
      (fun _ => true) .obsError (.success [["addr-op-new"]]) (.success mdA) =
      .ok ({ agreement := some agA, mosaicInfo := none,
             operators := ["addr-op-new"], metadata := some mdA }, true) ∧
    stPrev.mosaicInfo = some mosA :=
  ⟨rfl, rfl⟩

/-- C7 amended: once agreement authenticity is verified, `synchronize()`
always returns `true` whatever the three best-effort reads do, and each
read's effect is independent of the other two; a failed operator-set or
metadata read leaves its field at the previous value, and so does a
synchronous throw around the asset-info read, but an asset-info read
whose observable errors overwrites `mosaicInfo` with `undefined` via the
`catchError` pipe. -/
theorem governable_C7_best_effort_reads (st : OrgState) (hash : String)
    (ag : AggregateTransaction) (verify : AggregateTransaction → Bool)
    (rm : ReadOutcome MosaicInfo) (rg : ReadOutcome (List (List Address)))
    (rmd : ReadOutcome MetadataBucket)
    (hh : hash.isEmpty = false) (hv : verify ag = true) :
    ∃ st₁,
      DistributedOrganization.synchronize st (some hash) (.success ag) verify
        rm rg rmd = .ok (st₁, true) ∧
      st₁.agreement = some ag ∧
      (∀ v, rm = .success v → st₁.mosaicInfo = some v) ∧
      (rm = .obsError → st₁.mosaicInfo = none) ∧
      (rm = .syncThrow → st₁.mosaicInfo = st.mosaicInfo) ∧
      (∀ g, rg = .success g →
        st₁.operators = if g.isEmpty then st.operators else g.join) ∧
      (rg = .obsError ∨ rg = .syncThrow → st₁.operators = st.operators) ∧
      (∀ m, rmd = .success m → st₁.metadata = some m) ∧
      (rmd = .obsError ∨ rmd = .syncThrow → st₁.metadata = st.metadata) := by
  cases rm <;> cases rg <;> cases rmd <;>
    simp [DistributedOrganization.synchronize, hh, hv, apply_ite] <;>
    split <;> simp_all

/-- C7 witness: the amended claim with a throwing asset-info read, an
erroring operator read and a successful metadata read. -/
theorem governable_C7_witness :
    ∃ st₁,
      DistributedOrganization.synchronize stPrev (some "ab12") (.success agA)
        (fun _ => true) .syncThrow .obsError (.success mdA) = .ok (st₁, true) ∧
      st₁.agreement = some agA ∧
      (∀ v, (ReadOutcome.syncThrow : ReadOutcome MosaicInfo) = .success v →
        st₁.mosaicInfo = some v) ∧
      ((ReadOutcome.syncThrow : ReadOutcome MosaicInfo) = .obsError →
        st₁.mosaicInfo = none) ∧
      ((ReadOutcome.syncThrow : ReadOutcome MosaicInfo) = .syncThrow →
        st₁.mosaicInfo = stPrev.mosaicInfo) ∧
      (∀ g, (ReadOutcome.obsError : ReadOutcome (List (List Address))) = .success g →
        st₁.operators = if g.isEmpty then stPrev.operators else g.join) ∧
      ((ReadOutcome.obsError : ReadOutcome (List (List Address))) = .obsError ∨
         (ReadOutcome.obsError : ReadOutcome (List (List Address))) = .syncThrow →
        st₁.operators = stPrev.operators) ∧
      (∀ m, (ReadOutcome.success mdA : ReadOutcome MetadataBucket) = .success m →
        st₁.metadata = some m) ∧
      ((ReadOutcome.success mdA : ReadOutcome MetadataBucket) = .obsError ∨
         (ReadOutcome.success mdA : ReadOutcome MetadataBucket) = .syncThrow →
        st₁.metadata = stPrev.metadata) :=
  governable_C7_best_effort_reads stPrev "ab12" agA (fun _ => true)
    .syncThrow .obsError (.success mdA) rfl rfl

/-! ## C8 — unknown contract names fail before dispatch -/

/-- A trivial contracts table (the unknown-name path never calls into
it; proofs below hold for every table). -/
def implsTrivial : ContractsTable :=
  fun _ _ _ => ⟨fun _ _ _ => .ok ⟨true, none⟩, fun _ _ _ => .ok ⟨⟨[]⟩⟩⟩

/-- C8 counterexample: two non-five-name dispatches that do *not* raise
`FailureInvalidContract`.  First, `"Unknown"` through
`DistributedOrganization.execute` when the mandatory `synchronize()`
preceding contract resolution fails: agreement authenticity fails here,
so the call raises `FailureInvalidAgreement` instead.  Second,
`"toString"` through `DistributedOrganization.canExecute`: the inherited
`Object.prototype.toString` is truthy, slips past the
`!DigitalContracts[command]` guard, and the run ends in a raw
`TypeError`, again not `FailureInvalidContract`. -/
theorem governable_C8_counterexample :
    DigitalContracts.contains "Unknown" = false ∧
    DistributedOrganization.execute implsTrivial {} (some "ab12") (.success agA)
      (fun _ => false) .syncThrow .syncThrow .syncThrow actorA aidA "Unknown" {} [] =
      .error (.invalidAgreement
        "Authenticity verification failed for DAO launch agreement.") ∧
    DigitalContracts.contains "toString" = false ∧
    DistributedOrganization.canExecute implsTrivial {} actorA aidA "toString" [] =
      .error .typeError :=
  ⟨rfl, rfl, rfl, rfl⟩

/-- C8 amended: dispatching a contract name outside the five-name table
splits on whether the name is one that `DigitalContracts` inherits from
`Object.prototype`.  Otherwise-unknown names raise
`FailureInvalidContract` through `canExecute` and `executeOffline`
immediately, and through `execute` provided the preceding
`synchronize()` completes (a `synchronize()` failure propagates
instead); inherited `Object.prototype` member names (`toString`,
`constructor`, ...) slip past the truthiness guard and the dispatch ends
in a raw `TypeError` instead, under the same `synchronize()` proviso for
`execute`.  In every case the result is the same for *every* contracts
table, so no contract's authorization logic runs. -/
theorem governable_C8_unknown_contract (impls : ContractsTable) (st : OrgState)
    (actor : PublicAccount) (aid : AssetIdentifier) (command : String)
    (params : TransactionParameters) (argv : List ContractOption)
    (h : DigitalContracts.contains command = false) :
    (objectPrototypeMembers.contains command = false →
      DistributedOrganization.canExecute impls st actor aid command argv =
        .error (.invalidContract "Invalid digital contract name.") ∧
      DistributedOrganization.executeOffline impls st actor aid command params argv =
        .error (.invalidContract "Invalid digital contract name.") ∧
      (∀ hash ra verify rm rg rmd st₁ b,
        DistributedOrganization.synchronize st hash ra verify rm rg rmd = .ok (st₁, b) →
        DistributedOrganization.execute impls st hash ra verify rm rg rmd
          actor aid command params argv =
          .error (.invalidContract "Invalid digital contract name."))) ∧
    (objectPrototypeMembers.contains command = true →
      DistributedOrganization.canExecute impls st actor aid command argv =
        .error .typeError ∧
      DistributedOrganization.executeOffline impls st actor aid command params argv =
        .error .typeError ∧
      (∀ hash ra verify rm rg rmd st₁ b,
        DistributedOrganization.synchronize st hash ra verify rm rg rmd = .ok (st₁, b) →
        DistributedOrganization.execute impls st hash ra verify rm rg rmd
          actor aid command params argv = .error .typeError)) := by
  have hmem : command ∉ DigitalContracts := by simpa using h
  constructor
  · intro hp
    have hpmem : command ∉ objectPrototypeMembers := by simpa using hp
    refine ⟨?_, ?_, ?_⟩
    · simp [DistributedOrganization.canExecute, DistributedOrganization.getContract,
        hmem, hpmem, exceptOkBind, exceptErrorBind]
    · simp [DistributedOrganization.executeOffline, DistributedOrganization.getContract,
        hmem, hpmem, exceptOkBind, exceptErrorBind]
    · intro hash ra verify rm rg rmd st₁ b hsync
      simp [DistributedOrganization.execute, DistributedOrganization.getContract,
        hsync, hmem, hpmem, exceptOkBind, exceptErrorBind]
  · intro hp
    have hpmem : command ∈ objectPrototypeMembers := by simpa using hp
    refine ⟨?_, ?_, ?_⟩
    · simp [DistributedOrganization.canExecute, DistributedOrganization.getContract,
        hmem, hpmem, exceptOkBind, exceptErrorBind]
    · simp [DistributedOrganization.executeOffline, DistributedOrganization.getContract,
        hmem, hpmem, exceptOkBind, exceptErrorBind]
    · intro hash ra verify rm rg rmd st₁ b hsync
      simp [DistributedOrganization.execute, DistributedOrganization.getContract,
        hsync, hmem, hpmem, exceptOkBind, exceptErrorBind]

/-- C8 witness: the amended claim at the names `"Unknown"` (first
branch) and `"toString"` (inherited-member branch) with the trivial
table; the `execute` conjuncts are discharged with no agreement hash
configured (`synchronize()` returns immediately). -/
theorem governable_C8_witness :
    DistributedOrganization.canExecute implsTrivial {} actorA aidA "Unknown" [] =
      .error (.invalidContract "Invalid digital contract name.") ∧
    DistributedOrganization.executeOffline implsTrivial {} actorA aidA "Unknown" {} [] =
      .error (.invalidContract "Invalid digital contract name.") ∧
    DistributedOrganization.execute implsTrivial {} none (.success agA)
      (fun _ => true) .syncThrow .syncThrow .syncThrow actorA aidA "Unknown" {} [] =
      .error (.invalidContract "Invalid digital contract name.") ∧
    DistributedOrganization.canExecute implsTrivial {} actorA aidA "toString" [] =
      .error .typeError ∧
    DistributedOrganization.executeOffline implsTrivial {} actorA aidA "toString" {} [] =
      .error .typeError ∧
    DistributedOrganization.execute implsTrivial {} none (.success agA)
      (fun _ => true) .syncThrow .syncThrow .syncThrow actorA aidA "toString" {} [] =
      .error .typeError := by
  have h₁ := governable_C8_unknown_contract implsTrivial {} actorA aidA "Unknown"
    {} [] rfl
  have h₂ := governable_C8_unknown_contract implsTrivial {} actorA aidA "toString"
    {} [] rfl
  exact ⟨(h₁.1 rfl).1, (h₁.1 rfl).2.1,
    (h₁.1 rfl).2.2 none (.success agA) (fun _ => true)
      .syncThrow .syncThrow .syncThrow {} true rfl,
    (h₂.2 rfl).1, (h₂.2 rfl).2.1,
    (h₂.2 rfl).2.2 none (.success agA) (fun _ => true)
      .syncThrow .syncThrow .syncThrow {} true rfl⟩
